import Mathlib

/-
Shallow embedding of src/components/MultiversalAppBootstrap.tsx from the
next-right-now repository.

Props objects are modelled as association lists with JavaScript object-spread
semantics: a later binding for a key overrides an earlier one, so the spread
expression aObj-spread-bObj is list append with last-wins lookup.  External
collaborators (i18nextLocize, initCustomerTheme, UniversalCookiesManager,
iframe utilities) are parameters of an environment record; each may fail,
since the component installs no error handling of its own.  The component is
a pure function from an environment and a props object to the list of side
effects it performs (Sentry breadcrumb, console output, collaborator calls)
together with its render result.
-/

namespace NextRightNow

/-- A JavaScript runtime value, as far as the component observes values:
undefined, null, booleans, numbers, strings and plain objects. -/
inductive Value where
  | vUndef
  | vNull
  | vBool (b : Bool)
  | vNum (n : Nat)
  | vStr (s : String)
  | vObj (fields : List (String × Value))

/-- A JavaScript object: an insertion-ordered list of key/value bindings.
Later bindings override earlier ones, matching object-spread semantics. -/
abbrev Obj := List (String × Value)

/-- Last-wins lookup: the value of the latest binding of key k, if any. -/
def lookupLast : Obj → String → Option Value
  | [], _ => none
  | kv :: tl, k =>
    match lookupLast tl k with
    | some v => some v
    | none => if kv.1 = k then some kv.2 else none

/-- JavaScript property read: the latest binding, or undefined when absent. -/
def getField (o : Obj) (k : String) : Value :=
  (lookupLast o k).getD Value.vUndef

/-- Whether the object has a binding for the key. -/
def hasKey (o : Obj) (k : String) : Bool :=
  (lookupLast o k).isSome

/-- JavaScript truthiness, used by the `pageProps.isReadyToRender || ...`
condition on line 51 of the source. -/
def truthy : Value → Bool
  | .vUndef => false
  | .vNull => false
  | .vBool b => b
  | .vNum n => decide (n ≠ 0)
  | .vStr s => decide (s ≠ "")
  | .vObj _ => true

/-- The fields of an object value; non-objects expose no fields. -/
def Value.fieldsOf : Value → Obj
  | .vObj fields => fields
  | _ => []

/-- The four keys pulled out by the destructuring
`const { Component, err, pageProps, router, ...rest } = props;`. -/
def destructuredKeys : List String :=
  ["Component", "err", "pageProps", "router"]

/-- The rest element of the destructuring: every binding of props whose key
is not one of the four destructured names. -/
def restOf : Obj → Obj
  | [] => []
  | kv :: tl => if destructuredKeys.contains kv.1 then restOf tl else kv :: restOf tl

/-- The pageProps object carried by props. -/
def pagePropsOf (props : Obj) : Obj :=
  (getField props "pageProps").fieldsOf

/-- JavaScript strict equality against the number literal 404, as in
`pageProps.statusCode === 404`. -/
def Value.strictEq404 : Value → Bool
  | .vNum 404 => true
  | _ => false

/-- The readiness gate of line 51:
`pageProps.isReadyToRender || pageProps.statusCode === 404`. -/
def readyGate (pageProps : Obj) : Bool :=
  truthy (getField pageProps "isReadyToRender") ||
    (getField pageProps "statusCode").strictEq404

/-- The fileLabel constant of the source. -/
def fileLabel : String := "components/MultiversalAppBootstrap"

/-- One observable side effect of a render pass: the Sentry breadcrumb,
console output, or a call to one of the external collaborators. -/
inductive Event where
  | addBreadcrumb (category message : String)
  | consoleDebug (message : String) (data : Obj)
  | consoleInfo (message : String)
  | i18nextLocizeCall (lang defaultLocales : Value)
  | initCustomerThemeCall (customer : Value)
  | isRunningInIframeCall
  | getIframeReferrerCall
  | newUniversalCookiesManagerCall
  | getUserDataCall (manager : Value)

/-- Whether an event is a call to one of the external collaborators
(i18next, theme, iframe utilities, cookies manager / session). -/
def Event.isCollabCall : Event → Bool
  | .i18nextLocizeCall _ _ => true
  | .initCustomerThemeCall _ => true
  | .isRunningInIframeCall => true
  | .getIframeReferrerCall => true
  | .newUniversalCookiesManagerCall => true
  | .getUserDataCall _ => true
  | _ => false

/-- Whether an event is the Sentry breadcrumb emission. -/
def Event.isBreadcrumbEv : Event → Bool
  | .addBreadcrumb _ _ => true
  | _ => false

/-- Whether an event is a console.debug emission. -/
def Event.isConsoleDebugEv : Event → Bool
  | .consoleDebug _ _ => true
  | _ => false

/-- The environment of the component: the execution context (browser or not)
and the behaviour of each external collaborator.  Each collaborator may
throw, modelled by Except. -/
structure Env (ε : Type) where
  isBrowser : Bool
  i18nextLocize : Value → Value → Except ε Value
  initCustomerTheme : Value → Except ε Value
  isRunningInIframe : Except ε Bool
  getIframeReferrer : Except ε String
  newUniversalCookiesManager : Except ε Value
  getUserData : Value → Except ε Value

/-- The render result: null (not ready), delegation to the universal
PageBootstrap renderer, or delegation to the BrowserPageBootstrap renderer,
each carrying the delegated props object. -/
inductive RenderResult where
  | nullRender
  | pageBootstrap (props : Obj)
  | browserPageBootstrap (props : Obj)

/-- The merged props of lines 60-68:
spread pageProps, then Component, err, i18nextInstance, router, theme, then
spread rest last. -/
def pageBootstrapProps (pageProps : Obj) (Component err i18nextInstance router theme : Value)
    (rest : Obj) : Obj :=
  pageProps ++
    [("Component", Component), ("err", err), ("i18nextInstance", i18nextInstance),
     ("router", router), ("theme", theme)] ++
    rest

/-- The browser props of lines 90-96: spread the merged props, then the four
freshly computed browser values last. -/
def browserPageBootstrapProps (pbp : Obj) (isInIframe : Bool) (iframeReferrer : String)
    (cookiesManager userSession : Value) : Obj :=
  pbp ++
    [("isInIframe", Value.vBool isInIframe), ("iframeReferrer", Value.vStr iframeReferrer),
     ("cookiesManager", cookiesManager), ("userSession", userSession)]

/-- The component MultiversalAppBootstrap (lines 32-117), as a pure function
from an environment and a props object to the trace of side effects performed
and either a render result or the error a collaborator threw (nothing is
caught locally). -/
def MultiversalAppBootstrap {ε : Type} (env : Env ε) (props : Obj) :
    List Event × Except ε RenderResult :=
  let Component := getField props "Component"
  let err := getField props "err"
  let pageProps := pagePropsOf props
  let router := getField props "router"
  let rest := restOf props
  let ev₁ : List Event :=
    [Event.addBreadcrumb fileLabel ("Rendering " ++ fileLabel)] ++
      (if env.isBrowser then [Event.consoleDebug "MultiversalAppBootstrap.props" props] else [])
  if readyGate pageProps then
    let ev₂ := ev₁ ++ [Event.consoleInfo "MultiversalAppBootstrap - App is ready, rendering..."]
    let customer := getField pageProps "customer"
    let defaultLocales := getField pageProps "defaultLocales"
    let lang := getField pageProps "lang"
    let ev₃ := ev₂ ++ [Event.i18nextLocizeCall lang defaultLocales]
    match env.i18nextLocize lang defaultLocales with
    | .error e => (ev₃, .error e)
    | .ok i18nextInstance =>
      let ev₄ := ev₃ ++ [Event.initCustomerThemeCall customer]
      match env.initCustomerTheme customer with
      | .error e => (ev₄, .error e)
      | .ok theme =>
        let pbp := pageBootstrapProps pageProps Component err i18nextInstance router theme rest
        if env.isBrowser then
          let ev₅ := ev₄ ++ [Event.isRunningInIframeCall]
          match env.isRunningInIframe with
          | .error e => (ev₅, .error e)
          | .ok isInIframe =>
            let ev₆ := ev₅ ++ [Event.getIframeReferrerCall]
            match env.getIframeReferrer with
            | .error e => (ev₆, .error e)
            | .ok iframeReferrer =>
              let ev₇ := ev₆ ++ [Event.newUniversalCookiesManagerCall]
              match env.newUniversalCookiesManager with
              | .error e => (ev₇, .error e)
              | .ok cookiesManager =>
                let ev₈ := ev₇ ++ [Event.getUserDataCall cookiesManager]
                match env.getUserData cookiesManager with
                | .error e => (ev₈, .error e)
                | .ok userSession =>
                  (ev₈, .ok (RenderResult.browserPageBootstrap
                    (browserPageBootstrapProps pbp isInIframe iframeReferrer
                      cookiesManager userSession)))
        else
          (ev₄, .ok (RenderResult.pageBootstrap pbp))
  else
    (ev₁ ++
      [Event.consoleInfo "MultiversalAppBootstrap - App is not ready yet, waiting for isReadyToRender"],
     .ok RenderResult.nullRender)

/-- The props delegated to a renderer, when the render pass delegated. -/
def delegatedProps {ε : Type} (r : List Event × Except ε RenderResult) : Option Obj :=
  match r.2 with
  | .ok (RenderResult.pageBootstrap o) => some o
  | .ok (RenderResult.browserPageBootstrap o) => some o
  | _ => none

/-! Lookup lemmas for the object model. -/

theorem lookupLast_nil (k : String) : lookupLast [] k = none := rfl

theorem lookupLast_cons (kv : String × Value) (tl : Obj) (k : String) :
    lookupLast (kv :: tl) k =
      match lookupLast tl k with
      | some v => some v
      | none => if kv.1 = k then some kv.2 else none := rfl

theorem lookupLast_append (a b : Obj) (k : String) :
    lookupLast (a ++ b) k =
      match lookupLast b k with
      | some v => some v
      | none => lookupLast a k := by
  induction a with
  | nil =>
    rw [List.nil_append, lookupLast_nil]
    cases lookupLast b k <;> rfl
  | cons kv tl ih =>
    rw [List.cons_append, lookupLast_cons, ih, lookupLast_cons]
    cases lookupLast b k <;> cases lookupLast tl k <;> rfl

theorem getField_append_right (a b : Obj) (k : String) (h : hasKey b k = true) :
    getField (a ++ b) k = getField b k := by
  unfold getField hasKey at *
  rw [lookupLast_append]
  cases hb : lookupLast b k with
  | none => rw [hb] at h; simp at h
  | some v => simp

theorem getField_append_left (a b : Obj) (k : String) (h : hasKey b k = false) :
    getField (a ++ b) k = getField a k := by
  unfold getField hasKey at *
  rw [lookupLast_append]
  cases hb : lookupLast b k with
  | none => simp
  | some v => rw [hb] at h; simp at h

theorem hasKey_append (a b : Obj) (k : String) :
    hasKey (a ++ b) k = (hasKey a k || hasKey b k) := by
  unfold hasKey
  rw [lookupLast_append]
  cases lookupLast b k <;> cases lookupLast a k <;> rfl

theorem lookupLast_restOf_kept (props : Obj) (k : String)
    (h : destructuredKeys.contains k = false) :
    lookupLast (restOf props) k = lookupLast props k := by
  induction props with
  | nil => rfl
  | cons kv tl ih =>
    by_cases hk : destructuredKeys.contains kv.1 = true
    · have hne : ¬(kv.1 = k) := by
        intro he; rw [he] at hk; rw [h] at hk; exact Bool.noConfusion hk
      rw [restOf, if_pos hk, ih, lookupLast_cons]
      cases lookupLast tl k with
      | none => rw [if_neg hne]
      | some v => rfl
    · rw [restOf, if_neg hk, lookupLast_cons, lookupLast_cons, ih]

theorem lookupLast_restOf_destructured (props : Obj) (k : String)
    (h : destructuredKeys.contains k = true) :
    lookupLast (restOf props) k = none := by
  induction props with
  | nil => rfl
  | cons kv tl ih =>
    by_cases hk : destructuredKeys.contains kv.1 = true
    · rw [restOf, if_pos hk, ih]
    · have hne : ¬(kv.1 = k) := by
        intro he; rw [he] at hk; exact hk h
      rw [restOf, if_neg hk, lookupLast_cons, ih, if_neg hne]

theorem hasKey_restOf_kept (props : Obj) (k : String)
    (h : destructuredKeys.contains k = false) :
    hasKey (restOf props) k = hasKey props k := by
  unfold hasKey
  rw [lookupLast_restOf_kept props k h]

theorem getField_restOf_kept (props : Obj) (k : String)
    (h : destructuredKeys.contains k = false) :
    getField (restOf props) k = getField props k := by
  unfold getField
  rw [lookupLast_restOf_kept props k h]

theorem hasKey_restOf_destructured (props : Obj) (k : String)
    (h : destructuredKeys.contains k = true) :
    hasKey (restOf props) k = false := by
  unfold hasKey
  rw [lookupLast_restOf_destructured props k h]
  rfl

/-! Field lemmas for the merged props objects. -/

theorem getField_pbp_rest (pp : Obj) (C e i r t : Value) (rest : Obj) (k : String)
    (h : hasKey rest k = true) :
    getField (pageBootstrapProps pp C e i r t rest) k = getField rest k := by
  unfold pageBootstrapProps
  exact getField_append_right _ _ _ h

theorem getField_pbp_Component (pp : Obj) (C e i r t : Value) (rest : Obj)
    (h : hasKey rest "Component" = false) :
    getField (pageBootstrapProps pp C e i r t rest) "Component" = C := by
  unfold pageBootstrapProps
  rw [getField_append_left _ _ _ h, getField_append_right _ _ _ (by rfl)]
  simp [getField, lookupLast]

theorem getField_pbp_err (pp : Obj) (C e i r t : Value) (rest : Obj)
    (h : hasKey rest "err" = false) :
    getField (pageBootstrapProps pp C e i r t rest) "err" = e := by
  unfold pageBootstrapProps
  rw [getField_append_left _ _ _ h, getField_append_right _ _ _ (by rfl)]
  simp [getField, lookupLast]

theorem getField_pbp_i18nextInstance (pp : Obj) (C e i r t : Value) (rest : Obj)
    (h : hasKey rest "i18nextInstance" = false) :
    getField (pageBootstrapProps pp C e i r t rest) "i18nextInstance" = i := by
  unfold pageBootstrapProps
  rw [getField_append_left _ _ _ h, getField_append_right _ _ _ (by rfl)]
  simp [getField, lookupLast]

theorem getField_pbp_router (pp : Obj) (C e i r t : Value) (rest : Obj)
    (h : hasKey rest "router" = false) :
    getField (pageBootstrapProps pp C e i r t rest) "router" = r := by
  unfold pageBootstrapProps
  rw [getField_append_left _ _ _ h, getField_append_right _ _ _ (by rfl)]
  simp [getField, lookupLast]

theorem getField_pbp_theme (pp : Obj) (C e i r t : Value) (rest : Obj)
    (h : hasKey rest "theme" = false) :
    getField (pageBootstrapProps pp C e i r t rest) "theme" = t := by
  unfold pageBootstrapProps
  rw [getField_append_left _ _ _ h, getField_append_right _ _ _ (by rfl)]
  simp [getField, lookupLast]

theorem getField_pbp_pageProps_fallthrough (pp : Obj) (C e i r t : Value) (rest : Obj)
    (k : String) (hrest : hasKey rest k = false)
    (h1 : k ≠ "Component") (h2 : k ≠ "err") (h3 : k ≠ "i18nextInstance")
    (h4 : k ≠ "router") (h5 : k ≠ "theme") :
    getField (pageBootstrapProps pp C e i r t rest) k = getField pp k := by
  unfold pageBootstrapProps
  rw [getField_append_left _ _ _ hrest, getField_append_left _ _ _
    (by simp [hasKey, lookupLast, Ne.symm h1, Ne.symm h2, Ne.symm h3, Ne.symm h4, Ne.symm h5])]

theorem hasKey_pbp_of_rest (pp : Obj) (C e i r t : Value) (rest : Obj) (k : String)
    (h : hasKey rest k = true) :
    hasKey (pageBootstrapProps pp C e i r t rest) k = true := by
  unfold pageBootstrapProps
  rw [hasKey_append, h, Bool.or_true]

theorem getField_bpp_isInIframe (pbp : Obj) (iif : Bool) (iref : String) (cm us : Value) :
    getField (browserPageBootstrapProps pbp iif iref cm us) "isInIframe" = Value.vBool iif := by
  unfold browserPageBootstrapProps
  rw [getField_append_right _ _ _ (by rfl)]
  simp [getField, lookupLast]

theorem getField_bpp_iframeReferrer (pbp : Obj) (iif : Bool) (iref : String) (cm us : Value) :
    getField (browserPageBootstrapProps pbp iif iref cm us) "iframeReferrer"
      = Value.vStr iref := by
  unfold browserPageBootstrapProps
  rw [getField_append_right _ _ _ (by rfl)]
  simp [getField, lookupLast]

theorem getField_bpp_cookiesManager (pbp : Obj) (iif : Bool) (iref : String) (cm us : Value) :
    getField (browserPageBootstrapProps pbp iif iref cm us) "cookiesManager" = cm := by
  unfold browserPageBootstrapProps
  rw [getField_append_right _ _ _ (by rfl)]
  simp [getField, lookupLast]

theorem getField_bpp_userSession (pbp : Obj) (iif : Bool) (iref : String) (cm us : Value) :
    getField (browserPageBootstrapProps pbp iif iref cm us) "userSession" = us := by
  unfold browserPageBootstrapProps
  rw [getField_append_right _ _ _ (by rfl)]
  simp [getField, lookupLast]

theorem getField_bpp_other (pbp : Obj) (iif : Bool) (iref : String) (cm us : Value)
    (k : String) (h1 : k ≠ "isInIframe") (h2 : k ≠ "iframeReferrer")
    (h3 : k ≠ "cookiesManager") (h4 : k ≠ "userSession") :
    getField (browserPageBootstrapProps pbp iif iref cm us) k = getField pbp k := by
  unfold browserPageBootstrapProps
  rw [getField_append_left _ _ _
    (by simp [hasKey, lookupLast, Ne.symm h1, Ne.symm h2, Ne.symm h3, Ne.symm h4])]

theorem hasKey_bpp_of_pbp (pbp : Obj) (iif : Bool) (iref : String) (cm us : Value)
    (k : String) (h : hasKey pbp k = true) :
    hasKey (browserPageBootstrapProps pbp iif iref cm us) k = true := by
  unfold browserPageBootstrapProps
  rw [hasKey_append, h, Bool.true_or]

/-! Characterizations of the three control-flow paths of the component. -/

theorem run_not_ready {ε : Type} (env : Env ε) (props : Obj)
    (h : readyGate (pagePropsOf props) = false) :
    MultiversalAppBootstrap env props =
      ([Event.addBreadcrumb fileLabel ("Rendering " ++ fileLabel)] ++
        (if env.isBrowser then [Event.consoleDebug "MultiversalAppBootstrap.props" props]
         else []) ++
        [Event.consoleInfo
          "MultiversalAppBootstrap - App is not ready yet, waiting for isReadyToRender"],
       Except.ok RenderResult.nullRender) := by
  simp [MultiversalAppBootstrap, h]

theorem run_universal {ε : Type} (env : Env ε) (props : Obj) (i t : Value)
    (hgate : readyGate (pagePropsOf props) = true)
    (hb : env.isBrowser = false)
    (hi : env.i18nextLocize (getField (pagePropsOf props) "lang")
      (getField (pagePropsOf props) "defaultLocales") = Except.ok i)
    (ht : env.initCustomerTheme (getField (pagePropsOf props) "customer") = Except.ok t) :
    MultiversalAppBootstrap env props =
      ([Event.addBreadcrumb fileLabel ("Rendering " ++ fileLabel),
        Event.consoleInfo "MultiversalAppBootstrap - App is ready, rendering...",
        Event.i18nextLocizeCall (getField (pagePropsOf props) "lang")
          (getField (pagePropsOf props) "defaultLocales"),
        Event.initCustomerThemeCall (getField (pagePropsOf props) "customer")],
       Except.ok (RenderResult.pageBootstrap
         (pageBootstrapProps (pagePropsOf props) (getField props "Component")
           (getField props "err") i (getField props "router") t (restOf props)))) := by
  simp [MultiversalAppBootstrap, hgate, hb, hi, ht]

theorem run_browser {ε : Type} (env : Env ε) (props : Obj) (i t : Value) (iif : Bool)
    (iref : String) (cm us : Value)
    (hgate : readyGate (pagePropsOf props) = true)
    (hb : env.isBrowser = true)
    (hi : env.i18nextLocize (getField (pagePropsOf props) "lang")
      (getField (pagePropsOf props) "defaultLocales") = Except.ok i)
    (ht : env.initCustomerTheme (getField (pagePropsOf props) "customer") = Except.ok t)
    (hif : env.isRunningInIframe = Except.ok iif)
    (href : env.getIframeReferrer = Except.ok iref)
    (hcm : env.newUniversalCookiesManager = Except.ok cm)
    (hud : env.getUserData cm = Except.ok us) :
    MultiversalAppBootstrap env props =
      ([Event.addBreadcrumb fileLabel ("Rendering " ++ fileLabel),
        Event.consoleDebug "MultiversalAppBootstrap.props" props,
        Event.consoleInfo "MultiversalAppBootstrap - App is ready, rendering...",
        Event.i18nextLocizeCall (getField (pagePropsOf props) "lang")
          (getField (pagePropsOf props) "defaultLocales"),
        Event.initCustomerThemeCall (getField (pagePropsOf props) "customer"),
        Event.isRunningInIframeCall, Event.getIframeReferrerCall,
        Event.newUniversalCookiesManagerCall, Event.getUserDataCall cm],
       Except.ok (RenderResult.browserPageBootstrap
         (browserPageBootstrapProps
           (pageBootstrapProps (pagePropsOf props) (getField props "Component")
             (getField props "err") i (getField props "router") t (restOf props))
           iif iref cm us))) := by
  simp [MultiversalAppBootstrap, hgate, hb, hi, ht, hif, href, hcm, hud]

/-! Lemmas about the readiness gate. -/

theorem strictEq404_eq_false (v : Value) (h : v ≠ Value.vNum 404) :
    v.strictEq404 = false := by
  unfold Value.strictEq404
  split
  · exact absurd rfl h
  · rfl

theorem eq_404_of_strictEq404 (v : Value) (h : v.strictEq404 = true) :
    v = Value.vNum 404 := by
  unfold Value.strictEq404 at h
  split at h
  · rfl
  · exact Bool.noConfusion h

theorem readyGate_eq_false (pp : Obj)
    (hflag : truthy (getField pp "isReadyToRender") = false)
    (hstatus : getField pp "statusCode" ≠ Value.vNum 404) :
    readyGate pp = false := by
  unfold readyGate
  rw [hflag, strictEq404_eq_false _ hstatus]
  rfl

theorem readyGate_cases (pp : Obj) (h : readyGate pp = true) :
    truthy (getField pp "isReadyToRender") = true ∨
      getField pp "statusCode" = Value.vNum 404 := by
  unfold readyGate at h
  cases hf : truthy (getField pp "isReadyToRender") with
  | false =>
    rw [hf, Bool.false_or] at h
    exact Or.inr (eq_404_of_strictEq404 _ h)
  | true => exact Or.inl rfl

theorem readyGate_of_truthy (pp : Obj)
    (hflag : truthy (getField pp "isReadyToRender") = true) :
    readyGate pp = true := by
  unfold readyGate
  rw [hflag, Bool.true_or]

theorem contains_destructured_false (k : String) (h1 : k ≠ "Component") (h2 : k ≠ "err")
    (h3 : k ≠ "pageProps") (h4 : k ≠ "router") :
    destructuredKeys.contains k = false := by
  simp [destructuredKeys, h1, h2, h3, h4]

/-! Concrete sample inputs and environments used to witness the theorems. -/

/-- Sample pageProps whose readiness flag is set. -/
def ppReady : Obj :=
  [("isReadyToRender", Value.vBool true), ("statusCode", Value.vNum 200),
   ("customer", Value.vStr "customer1"),
   ("defaultLocales", Value.vObj [("common", Value.vStr "translationBundle")]),
   ("lang", Value.vStr "fr")]

/-- Sample pageProps that are not ready and carry a non-404 status code. -/
def ppNotReady : Obj :=
  [("isReadyToRender", Value.vBool false), ("statusCode", Value.vNum 200)]

/-- Sample props whose pageProps are ready, with one passthrough field. -/
def propsReady : Obj :=
  [("Component", Value.vStr "HomePage"), ("err", Value.vNull),
   ("pageProps", Value.vObj ppReady), ("router", Value.vStr "routerHandle"),
   ("__N_SSG", Value.vBool true)]

/-- Sample props whose pageProps are not ready. -/
def propsNotReady : Obj :=
  [("Component", Value.vStr "HomePage"), ("err", Value.vNull),
   ("pageProps", Value.vObj ppNotReady), ("router", Value.vStr "routerHandle")]

/-- A non-browser environment in which every collaborator succeeds. -/
def envServer : Env String where
  isBrowser := false
  i18nextLocize := fun lang defaultLocales =>
    Except.ok (Value.vObj [("language", lang), ("resources", defaultLocales)])
  initCustomerTheme := fun customer => Except.ok (Value.vObj [("primaryColor", customer)])
  isRunningInIframe := Except.ok false
  getIframeReferrer := Except.ok ""
  newUniversalCookiesManager := Except.ok (Value.vStr "cookiesManagerInstance")
  getUserData := fun manager => Except.ok (Value.vObj [("manager", manager)])

/-- A browser environment in which every collaborator succeeds. -/
def envBrowser : Env String where
  isBrowser := true
  i18nextLocize := fun lang defaultLocales =>
    Except.ok (Value.vObj [("language", lang), ("resources", defaultLocales)])
  initCustomerTheme := fun customer => Except.ok (Value.vObj [("primaryColor", customer)])
  isRunningInIframe := Except.ok true
  getIframeReferrer := Except.ok "https://referrer.example.org"
  newUniversalCookiesManager := Except.ok (Value.vStr "cookiesManagerInstance")
  getUserData := fun manager => Except.ok (Value.vObj [("manager", manager)])

/-! Shared helper lemmas about delegated props and the call trace. -/

theorem delegated_shape {ε : Type} (env : Env ε) (props : Obj) (i t : Value) (d : Obj)
    (hgate : readyGate (pagePropsOf props) = true)
    (hi : env.i18nextLocize (getField (pagePropsOf props) "lang")
      (getField (pagePropsOf props) "defaultLocales") = Except.ok i)
    (ht : env.initCustomerTheme (getField (pagePropsOf props) "customer") = Except.ok t)
    (hd : delegatedProps (MultiversalAppBootstrap env props) = some d) :
    (env.isBrowser = false ∧
      d = pageBootstrapProps (pagePropsOf props) (getField props "Component")
        (getField props "err") i (getField props "router") t (restOf props)) ∨
    (env.isBrowser = true ∧ ∃ (iif : Bool) (iref : String) (cm us : Value),
      env.isRunningInIframe = Except.ok iif ∧ env.getIframeReferrer = Except.ok iref ∧
      env.newUniversalCookiesManager = Except.ok cm ∧ env.getUserData cm = Except.ok us ∧
      d = browserPageBootstrapProps
        (pageBootstrapProps (pagePropsOf props) (getField props "Component")
          (getField props "err") i (getField props "router") t (restOf props))
        iif iref cm us) := by
  cases hb : env.isBrowser with
  | false =>
    left
    rw [run_universal env props i t hgate hb hi ht] at hd
    simp only [delegatedProps] at hd
    exact ⟨rfl, (Option.some.inj hd).symm⟩
  | true =>
    right
    refine ⟨rfl, ?_⟩
    rcases hif : env.isRunningInIframe with e3 | iif
    · simp [MultiversalAppBootstrap, hgate, hb, hi, ht, hif, delegatedProps] at hd
    · rcases href : env.getIframeReferrer with e4 | iref
      · simp [MultiversalAppBootstrap, hgate, hb, hi, ht, hif, href, delegatedProps] at hd
      · rcases hcm : env.newUniversalCookiesManager with e5 | cm
        · simp [MultiversalAppBootstrap, hgate, hb, hi, ht, hif, href, hcm,
            delegatedProps] at hd
        · rcases hud : env.getUserData cm with e6 | us
          · simp [MultiversalAppBootstrap, hgate, hb, hi, ht, hif, href, hcm, hud,
              delegatedProps] at hd
          · refine ⟨iif, iref, cm, us, rfl, rfl, rfl, hud, ?_⟩
            rw [run_browser env props i t iif iref cm us hgate hb hi ht hif href hcm hud] at hd
            simp only [delegatedProps] at hd
            exact (Option.some.inj hd).symm

theorem calls_in_trace {ε : Type} (env : Env ε) (props : Obj) (i : Value)
    (hgate : readyGate (pagePropsOf props) = true)
    (hi : env.i18nextLocize (getField (pagePropsOf props) "lang")
      (getField (pagePropsOf props) "defaultLocales") = Except.ok i) :
    Event.i18nextLocizeCall (getField (pagePropsOf props) "lang")
        (getField (pagePropsOf props) "defaultLocales")
      ∈ (MultiversalAppBootstrap env props).1 ∧
    Event.initCustomerThemeCall (getField (pagePropsOf props) "customer")
      ∈ (MultiversalAppBootstrap env props).1 := by
  cases hb : env.isBrowser with
  | false =>
    rcases ht : env.initCustomerTheme (getField (pagePropsOf props) "customer")
        with e2 | t <;>
      simp [MultiversalAppBootstrap, hgate, hb, hi, ht]
  | true =>
    rcases ht : env.initCustomerTheme (getField (pagePropsOf props) "customer") with e2 | t
    · simp [MultiversalAppBootstrap, hgate, hb, hi, ht]
    · rcases hif : env.isRunningInIframe with e3 | iif
      · simp [MultiversalAppBootstrap, hgate, hb, hi, ht, hif]
      · rcases href : env.getIframeReferrer with e4 | iref
        · simp [MultiversalAppBootstrap, hgate, hb, hi, ht, hif, href]
        · rcases hcm : env.newUniversalCookiesManager with e5 | cm
          · simp [MultiversalAppBootstrap, hgate, hb, hi, ht, hif, href, hcm]
          · rcases hud : env.getUserData cm with e6 | us <;>
              simp [MultiversalAppBootstrap, hgate, hb, hi, ht, hif, href, hcm, hud]

theorem pbp_preserves (props : Obj) (i t : Value) (k : String)
    (hk : hasKey props k = true) (hknp : k ≠ "pageProps") :
    getField (pageBootstrapProps (pagePropsOf props) (getField props "Component")
      (getField props "err") i (getField props "router") t (restOf props)) k
      = getField props k ∧
    hasKey (pageBootstrapProps (pagePropsOf props) (getField props "Component")
      (getField props "err") i (getField props "router") t (restOf props)) k = true := by
  by_cases h1 : k = "Component"
  · subst h1
    refine ⟨getField_pbp_Component _ _ _ _ _ _ _
      (hasKey_restOf_destructured _ _ (by decide)), ?_⟩
    unfold pageBootstrapProps
    rw [hasKey_append, hasKey_append]
    simp [hasKey, lookupLast]
  · by_cases h2 : k = "err"
    · subst h2
      refine ⟨getField_pbp_err _ _ _ _ _ _ _
        (hasKey_restOf_destructured _ _ (by decide)), ?_⟩
      unfold pageBootstrapProps
      rw [hasKey_append, hasKey_append]
      simp [hasKey, lookupLast]
    · by_cases h4 : k = "router"
      · subst h4
        refine ⟨getField_pbp_router _ _ _ _ _ _ _
          (hasKey_restOf_destructured _ _ (by decide)), ?_⟩
        unfold pageBootstrapProps
        rw [hasKey_append, hasKey_append]
        simp [hasKey, lookupLast]
      · have hc : destructuredKeys.contains k = false :=
          contains_destructured_false k h1 h2 hknp h4
        have hrest : hasKey (restOf props) k = true := by
          rw [hasKey_restOf_kept _ _ hc]; exact hk
        constructor
        · rw [getField_pbp_rest _ _ _ _ _ _ _ _ hrest, getField_restOf_kept _ _ hc]
        · exact hasKey_pbp_of_rest _ _ _ _ _ _ _ _ hrest

/-! Claim C1. -/

/-- C1: whenever pageProps.isReadyToRender is falsy and pageProps.statusCode is
not strictly 404, the component renders null (emitting only the breadcrumb and
console output), and conversely a rendering branch is selected only when the
readiness flag is truthy or the status code equals 404. -/
theorem C1_readiness_gate {ε : Type} (env : Env ε) (props : Obj) :
    (truthy (getField (pagePropsOf props) "isReadyToRender") = false →
      getField (pagePropsOf props) "statusCode" ≠ Value.vNum 404 →
      MultiversalAppBootstrap env props =
        ([Event.addBreadcrumb fileLabel ("Rendering " ++ fileLabel)] ++
          (if env.isBrowser then [Event.consoleDebug "MultiversalAppBootstrap.props" props]
           else []) ++
          [Event.consoleInfo
            "MultiversalAppBootstrap - App is not ready yet, waiting for isReadyToRender"],
         Except.ok RenderResult.nullRender)) ∧
    (∀ o : Obj,
      ((MultiversalAppBootstrap env props).2 = Except.ok (RenderResult.pageBootstrap o) ∨
       (MultiversalAppBootstrap env props).2 = Except.ok (RenderResult.browserPageBootstrap o)) →
      truthy (getField (pagePropsOf props) "isReadyToRender") = true ∨
        getField (pagePropsOf props) "statusCode" = Value.vNum 404) := by
  constructor
  · intro hflag hstatus
    exact run_not_ready env props (readyGate_eq_false _ hflag hstatus)
  · intro o ho
    cases hg : readyGate (pagePropsOf props) with
    | false =>
      exfalso
      rw [run_not_ready env props hg] at ho
      rcases ho with ho | ho
      · exact RenderResult.noConfusion (Except.ok.inj ho)
      · exact RenderResult.noConfusion (Except.ok.inj ho)
    | true => exact readyGate_cases _ hg

/-- C1 witness: on a concrete not-ready input, the component returns null. -/
theorem C1_readiness_gate_witness :
    (MultiversalAppBootstrap envServer propsNotReady).2 = Except.ok RenderResult.nullRender := by
  rw [(C1_readiness_gate envServer propsNotReady).1 (by decide)
    (by simp [getField, lookupLast, pagePropsOf, propsNotReady, ppNotReady, Value.fieldsOf])]

/-! Claim C2. -/

/-- Sample props that are ready but carry a passthrough field named theme. -/
def propsShadowTheme : Obj :=
  [("Component", Value.vStr "HomePage"), ("err", Value.vNull),
   ("pageProps", Value.vObj ppReady), ("router", Value.vStr "routerHandle"),
   ("theme", Value.vStr "passthroughTheme")]

/-- The i18n instance the sample environments return on the sample pageProps. -/
def i18nSample : Value :=
  Value.vObj [("language", Value.vStr "fr"),
    ("resources", Value.vObj [("common", Value.vStr "translationBundle")])]

/-- The theme the sample environments return on the sample pageProps. -/
def themeSample : Value := Value.vObj [("primaryColor", Value.vStr "customer1")]

/-- C2 counterexample: on ready props carrying a passthrough field named
theme, the props delegated to the renderer hold the passthrough value, not
the theme resolver's result, because rest is spread last. -/
theorem C2_counterexample :
    truthy (getField (pagePropsOf propsShadowTheme) "isReadyToRender") = true ∧
    envServer.initCustomerTheme (getField (pagePropsOf propsShadowTheme) "customer")
      = Except.ok themeSample ∧
    (delegatedProps (MultiversalAppBootstrap envServer propsShadowTheme)).map
        (fun d => getField d "theme")
      = some (Value.vStr "passthroughTheme") ∧
    Value.vStr "passthroughTheme" ≠ themeSample :=
  ⟨rfl, rfl, rfl, fun h => Value.noConfusion h⟩

/-- C2 (amended): with the readiness flag truthy, the component calls the i18n
resolver with the supplied lang and defaultLocales and the theme resolver with
the supplied customer; and whenever the passthrough rest fields contain
neither an i18nextInstance nor a theme key, the props delegated to the
selected renderer hold exactly those two results under i18nextInstance and
theme. -/
theorem C2_resolver_results_in_merged_props {ε : Type} (env : Env ε) (props : Obj)
    (i t : Value)
    (hflag : truthy (getField (pagePropsOf props) "isReadyToRender") = true)
    (hi : env.i18nextLocize (getField (pagePropsOf props) "lang")
      (getField (pagePropsOf props) "defaultLocales") = Except.ok i)
    (ht : env.initCustomerTheme (getField (pagePropsOf props) "customer") = Except.ok t)
    (hni : hasKey (restOf props) "i18nextInstance" = false)
    (hnt : hasKey (restOf props) "theme" = false) :
    Event.i18nextLocizeCall (getField (pagePropsOf props) "lang")
        (getField (pagePropsOf props) "defaultLocales")
      ∈ (MultiversalAppBootstrap env props).1 ∧
    Event.initCustomerThemeCall (getField (pagePropsOf props) "customer")
      ∈ (MultiversalAppBootstrap env props).1 ∧
    ∀ d : Obj, delegatedProps (MultiversalAppBootstrap env props) = some d →
      getField d "i18nextInstance" = i ∧ getField d "theme" = t := by
  have hgate := readyGate_of_truthy _ hflag
  refine ⟨(calls_in_trace env props i hgate hi).1, (calls_in_trace env props i hgate hi).2, ?_⟩
  intro d hd
  rcases delegated_shape env props i t d hgate hi ht hd with ⟨hb, hde⟩ |
    ⟨hb, iif, iref, cm, us, hif, href, hcm, hud, hde⟩
  · rw [hde]
    exact ⟨getField_pbp_i18nextInstance _ _ _ _ _ _ _ hni,
      getField_pbp_theme _ _ _ _ _ _ _ hnt⟩
  · rw [hde,
      getField_bpp_other _ _ _ _ _ _ (by decide) (by decide) (by decide) (by decide),
      getField_bpp_other _ _ _ _ _ _ (by decide) (by decide) (by decide) (by decide)]
    exact ⟨getField_pbp_i18nextInstance _ _ _ _ _ _ _ hni,
      getField_pbp_theme _ _ _ _ _ _ _ hnt⟩

/-- C2 witness: the amended claim applied at a concrete ready input. -/
theorem C2_resolver_results_in_merged_props_witness :
    Event.initCustomerThemeCall (Value.vStr "customer1")
      ∈ (MultiversalAppBootstrap envServer propsReady).1 ∧
    getField (pageBootstrapProps (pagePropsOf propsReady) (getField propsReady "Component")
        (getField propsReady "err") i18nSample (getField propsReady "router") themeSample
        (restOf propsReady)) "theme"
      = themeSample := by
  have h := C2_resolver_results_in_merged_props envServer propsReady i18nSample themeSample
    (by rfl) (by rfl) (by rfl) (by rfl) (by rfl)
  exact ⟨h.2.1, (h.2.2 _ (by rfl)).2⟩

/-! Claim C3. -/

/-- C3: when the readiness gate passes, execution is not in a browser, and the
i18n and theme resolvers return values, the component delegates the merged
props to the universal renderer PageBootstrap and never constructs a cookies
manager, retrieves session data, or computes iframe-detection or referrer
values. -/
theorem C3_non_browser_delegates_universal {ε : Type} (env : Env ε) (props : Obj)
    (i t : Value)
    (hgate : readyGate (pagePropsOf props) = true)
    (hb : env.isBrowser = false)
    (hi : env.i18nextLocize (getField (pagePropsOf props) "lang")
      (getField (pagePropsOf props) "defaultLocales") = Except.ok i)
    (ht : env.initCustomerTheme (getField (pagePropsOf props) "customer") = Except.ok t) :
    (MultiversalAppBootstrap env props).2 =
      Except.ok (RenderResult.pageBootstrap
        (pageBootstrapProps (pagePropsOf props) (getField props "Component")
          (getField props "err") i (getField props "router") t (restOf props))) ∧
    Event.isRunningInIframeCall ∉ (MultiversalAppBootstrap env props).1 ∧
    Event.getIframeReferrerCall ∉ (MultiversalAppBootstrap env props).1 ∧
    Event.newUniversalCookiesManagerCall ∉ (MultiversalAppBootstrap env props).1 ∧
    ∀ v : Value, Event.getUserDataCall v ∉ (MultiversalAppBootstrap env props).1 := by
  rw [run_universal env props i t hgate hb hi ht]
  refine ⟨rfl, ?_, ?_, ?_, ?_⟩ <;> simp

/-- C3 witness: concrete non-browser run delegating to PageBootstrap. -/
theorem C3_non_browser_delegates_universal_witness :
    (MultiversalAppBootstrap envServer propsReady).2 =
      Except.ok (RenderResult.pageBootstrap
        (pageBootstrapProps (pagePropsOf propsReady) (getField propsReady "Component")
          (getField propsReady "err")
          (Value.vObj [("language", Value.vStr "fr"),
            ("resources", Value.vObj [("common", Value.vStr "translationBundle")])])
          (getField propsReady "router")
          (Value.vObj [("primaryColor", Value.vStr "customer1")])
          (restOf propsReady))) ∧
    Event.newUniversalCookiesManagerCall ∉ (MultiversalAppBootstrap envServer propsReady).1 := by
  have h := C3_non_browser_delegates_universal envServer propsReady
    (Value.vObj [("language", Value.vStr "fr"),
      ("resources", Value.vObj [("common", Value.vStr "translationBundle")])])
    (Value.vObj [("primaryColor", Value.vStr "customer1")])
    (by rfl) (by rfl) (by rfl) (by rfl)
  exact ⟨h.1, h.2.2.2.1⟩

/-! Claim C4. -/

/-- C4: when the readiness gate passes, execution is in a browser, and every
collaborator returns a value, the component constructs the cookies manager,
retrieves the user session, computes the iframe flag and referrer, and
delegates to BrowserPageBootstrap with all four values present in the
delegated props. -/
theorem C4_browser_delegates_browser {ε : Type} (env : Env ε) (props : Obj)
    (i t : Value) (iif : Bool) (iref : String) (cm us : Value)
    (hgate : readyGate (pagePropsOf props) = true)
    (hb : env.isBrowser = true)
    (hi : env.i18nextLocize (getField (pagePropsOf props) "lang")
      (getField (pagePropsOf props) "defaultLocales") = Except.ok i)
    (ht : env.initCustomerTheme (getField (pagePropsOf props) "customer") = Except.ok t)
    (hif : env.isRunningInIframe = Except.ok iif)
    (href : env.getIframeReferrer = Except.ok iref)
    (hcm : env.newUniversalCookiesManager = Except.ok cm)
    (hud : env.getUserData cm = Except.ok us) :
    (MultiversalAppBootstrap env props).2 =
      Except.ok (RenderResult.browserPageBootstrap
        (browserPageBootstrapProps
          (pageBootstrapProps (pagePropsOf props) (getField props "Component")
            (getField props "err") i (getField props "router") t (restOf props))
          iif iref cm us)) ∧
    Event.isRunningInIframeCall ∈ (MultiversalAppBootstrap env props).1 ∧
    Event.getIframeReferrerCall ∈ (MultiversalAppBootstrap env props).1 ∧
    Event.newUniversalCookiesManagerCall ∈ (MultiversalAppBootstrap env props).1 ∧
    Event.getUserDataCall cm ∈ (MultiversalAppBootstrap env props).1 ∧
    (∀ d : Obj,
      (MultiversalAppBootstrap env props).2 =
        Except.ok (RenderResult.browserPageBootstrap d) →
      getField d "isInIframe" = Value.vBool iif ∧
      getField d "iframeReferrer" = Value.vStr iref ∧
      getField d "cookiesManager" = cm ∧
      getField d "userSession" = us) := by
  rw [run_browser env props i t iif iref cm us hgate hb hi ht hif href hcm hud]
  refine ⟨rfl, by simp, by simp, by simp, by simp, ?_⟩
  intro d hd
  have hde : d = browserPageBootstrapProps
      (pageBootstrapProps (pagePropsOf props) (getField props "Component")
        (getField props "err") i (getField props "router") t (restOf props))
      iif iref cm us :=
    (RenderResult.browserPageBootstrap.inj (Except.ok.inj hd)).symm
  rw [hde]
  exact ⟨getField_bpp_isInIframe _ _ _ _ _, getField_bpp_iframeReferrer _ _ _ _ _,
    getField_bpp_cookiesManager _ _ _ _ _, getField_bpp_userSession _ _ _ _ _⟩

/-- C4 witness: concrete browser run delegating to BrowserPageBootstrap with
the four browser values present. -/
theorem C4_browser_delegates_browser_witness :
    Event.getUserDataCall (Value.vStr "cookiesManagerInstance")
      ∈ (MultiversalAppBootstrap envBrowser propsReady).1 ∧
    (delegatedProps (MultiversalAppBootstrap envBrowser propsReady)).map
        (fun d => getField d "cookiesManager")
      = some (Value.vStr "cookiesManagerInstance") := by
  have h := C4_browser_delegates_browser envBrowser propsReady
    (Value.vObj [("language", Value.vStr "fr"),
      ("resources", Value.vObj [("common", Value.vStr "translationBundle")])])
    (Value.vObj [("primaryColor", Value.vStr "customer1")])
    true "https://referrer.example.org" (Value.vStr "cookiesManagerInstance")
    (Value.vObj [("manager", Value.vStr "cookiesManagerInstance")])
    (by rfl) (by rfl) (by rfl) (by rfl) (by rfl) (by rfl) (by rfl) (by rfl)
  refine ⟨h.2.2.2.2.1, ?_⟩
  rw [show delegatedProps (MultiversalAppBootstrap envBrowser propsReady)
      = some (browserPageBootstrapProps
        (pageBootstrapProps (pagePropsOf propsReady) (getField propsReady "Component")
          (getField propsReady "err")
          (Value.vObj [("language", Value.vStr "fr"),
            ("resources", Value.vObj [("common", Value.vStr "translationBundle")])])
          (getField propsReady "router")
          (Value.vObj [("primaryColor", Value.vStr "customer1")]) (restOf propsReady))
        true "https://referrer.example.org" (Value.vStr "cookiesManagerInstance")
        (Value.vObj [("manager", Value.vStr "cookiesManagerInstance")])) from by
    unfold delegatedProps
    rw [show (MultiversalAppBootstrap envBrowser propsReady).2
        = Except.ok (RenderResult.browserPageBootstrap
          (browserPageBootstrapProps
            (pageBootstrapProps (pagePropsOf propsReady) (getField propsReady "Component")
              (getField propsReady "err")
              (Value.vObj [("language", Value.vStr "fr"),
                ("resources", Value.vObj [("common", Value.vStr "translationBundle")])])
              (getField propsReady "router")
              (Value.vObj [("primaryColor", Value.vStr "customer1")]) (restOf propsReady))
            true "https://referrer.example.org" (Value.vStr "cookiesManagerInstance")
            (Value.vObj [("manager", Value.vStr "cookiesManagerInstance")]))) from h.1]]
  exact congrArg some (getField_bpp_cookiesManager _ _ _ _ _)

/-! Claim C5. -/

/-- Sample props that are ready, will run in a browser, and carry a
passthrough field named isInIframe. -/
def propsShadowIframe : Obj :=
  [("Component", Value.vStr "HomePage"), ("err", Value.vNull),
   ("pageProps", Value.vObj ppReady), ("router", Value.vStr "routerHandle"),
   ("isInIframe", Value.vStr "passthroughIframeValue")]

/-- C5 counterexample: the passthrough field isInIframe does not appear
unchanged in the browser delegate (the computed boolean overrides it), and
the delegated props are not a superset of the incoming props (the key
pageProps is absent from them). -/
theorem C5_counterexample :
    hasKey propsShadowIframe "isInIframe" = true ∧
    destructuredKeys.contains "isInIframe" = false ∧
    getField propsShadowIframe "isInIframe" = Value.vStr "passthroughIframeValue" ∧
    (delegatedProps (MultiversalAppBootstrap envBrowser propsShadowIframe)).map
        (fun d => getField d "isInIframe")
      = some (Value.vBool true) ∧
    Value.vBool true ≠ Value.vStr "passthroughIframeValue" ∧
    hasKey propsShadowIframe "pageProps" = true ∧
    (delegatedProps (MultiversalAppBootstrap envBrowser propsShadowIframe)).map
        (fun d => hasKey d "pageProps")
      = some false :=
  ⟨rfl, rfl, rfl, rfl, fun h => Value.noConfusion h, rfl, rfl⟩

/-- C5 (amended): every incoming key other than pageProps — in particular
every passthrough field — appears with unchanged value in the delegated props
of either branch, except that in the browser branch the four freshly computed
fields isInIframe, iframeReferrer, cookiesManager and userSession override
same-named passthrough fields; the pageProps key itself is spread into the
merged props rather than passed as a single field. -/
theorem C5_passthrough_superset {ε : Type} (env : Env ε) (props : Obj)
    (i t : Value) (d : Obj) (k : String)
    (hgate : readyGate (pagePropsOf props) = true)
    (hi : env.i18nextLocize (getField (pagePropsOf props) "lang")
      (getField (pagePropsOf props) "defaultLocales") = Except.ok i)
    (ht : env.initCustomerTheme (getField (pagePropsOf props) "customer") = Except.ok t)
    (hd : delegatedProps (MultiversalAppBootstrap env props) = some d)
    (hk : hasKey props k = true)
    (hknp : k ≠ "pageProps")
    (hkb : env.isBrowser = true →
      k ≠ "isInIframe" ∧ k ≠ "iframeReferrer" ∧ k ≠ "cookiesManager" ∧ k ≠ "userSession") :
    getField d k = getField props k ∧ hasKey d k = true := by
  rcases delegated_shape env props i t d hgate hi ht hd with ⟨hb, hde⟩ |
    ⟨hb, iif, iref, cm, us, hif, href, hcm, hud, hde⟩
  · rw [hde]
    exact pbp_preserves props i t k hk hknp
  · obtain ⟨hb1, hb2, hb3, hb4⟩ := hkb hb
    rw [hde]
    constructor
    · rw [getField_bpp_other _ _ _ _ _ _ hb1 hb2 hb3 hb4]
      exact (pbp_preserves props i t k hk hknp).1
    · exact hasKey_bpp_of_pbp _ _ _ _ _ _ (pbp_preserves props i t k hk hknp).2

/-- C5 witness: the passthrough field __N_SSG survives unchanged into the
delegated props on a concrete ready input. -/
theorem C5_passthrough_superset_witness :
    getField (pageBootstrapProps (pagePropsOf propsReady) (getField propsReady "Component")
        (getField propsReady "err") i18nSample (getField propsReady "router") themeSample
        (restOf propsReady)) "__N_SSG"
      = getField propsReady "__N_SSG" ∧
    hasKey (pageBootstrapProps (pagePropsOf propsReady) (getField propsReady "Component")
        (getField propsReady "err") i18nSample (getField propsReady "router") themeSample
        (restOf propsReady)) "__N_SSG" = true :=
  C5_passthrough_superset envServer propsReady i18nSample themeSample _ "__N_SSG"
    (by rfl) (by rfl) (by rfl) (by rfl) (by rfl) (by decide)
    (fun _ => ⟨by decide, by decide, by decide, by decide⟩)

/-! Claim C7. -/

/-- C7: nothing is caught by the component: when the readiness gate passes and
a collaborator throws (i18n setup, theme resolution, cookies-manager
construction, or session retrieval), the very same error is the result of the
render pass. -/
theorem C7_errors_propagate {ε : Type} (env : Env ε) (props : Obj) (e : ε)
    (hgate : readyGate (pagePropsOf props) = true) :
    (env.i18nextLocize (getField (pagePropsOf props) "lang")
        (getField (pagePropsOf props) "defaultLocales") = Except.error e →
      (MultiversalAppBootstrap env props).2 = Except.error e) ∧
    (∀ i : Value,
      env.i18nextLocize (getField (pagePropsOf props) "lang")
        (getField (pagePropsOf props) "defaultLocales") = Except.ok i →
      env.initCustomerTheme (getField (pagePropsOf props) "customer") = Except.error e →
      (MultiversalAppBootstrap env props).2 = Except.error e) ∧
    (∀ (i t : Value) (iif : Bool) (iref : String),
      env.isBrowser = true →
      env.i18nextLocize (getField (pagePropsOf props) "lang")
        (getField (pagePropsOf props) "defaultLocales") = Except.ok i →
      env.initCustomerTheme (getField (pagePropsOf props) "customer") = Except.ok t →
      env.isRunningInIframe = Except.ok iif →
      env.getIframeReferrer = Except.ok iref →
      env.newUniversalCookiesManager = Except.error e →
      (MultiversalAppBootstrap env props).2 = Except.error e) ∧
    (∀ (i t : Value) (iif : Bool) (iref : String) (cm : Value),
      env.isBrowser = true →
      env.i18nextLocize (getField (pagePropsOf props) "lang")
        (getField (pagePropsOf props) "defaultLocales") = Except.ok i →
      env.initCustomerTheme (getField (pagePropsOf props) "customer") = Except.ok t →
      env.isRunningInIframe = Except.ok iif →
      env.getIframeReferrer = Except.ok iref →
      env.newUniversalCookiesManager = Except.ok cm →
      env.getUserData cm = Except.error e →
      (MultiversalAppBootstrap env props).2 = Except.error e) := by
  refine ⟨?_, ?_, ?_, ?_⟩
  · intro hi
    simp [MultiversalAppBootstrap, hgate, hi]
  · intro i hi ht
    cases hb : env.isBrowser <;> simp [MultiversalAppBootstrap, hgate, hi, ht, hb]
  · intro i t iif iref hb hi ht hif href hcm
    simp [MultiversalAppBootstrap, hgate, hi, ht, hb, hif, href, hcm]
  · intro i t iif iref cm hb hi ht hif href hcm hud
    simp [MultiversalAppBootstrap, hgate, hi, ht, hb, hif, href, hcm, hud]

/-- A non-browser environment whose i18n collaborator throws. -/
def envI18nFails : Env String where
  isBrowser := false
  i18nextLocize := fun _ _ => Except.error "i18nextLocize exception"
  initCustomerTheme := fun customer => Except.ok (Value.vObj [("primaryColor", customer)])
  isRunningInIframe := Except.ok false
  getIframeReferrer := Except.ok ""
  newUniversalCookiesManager := Except.ok (Value.vStr "cookiesManagerInstance")
  getUserData := fun manager => Except.ok (Value.vObj [("manager", manager)])

/-- C7 witness: the concrete i18n exception surfaces unchanged as the result
of the render pass. -/
theorem C7_errors_propagate_witness :
    (MultiversalAppBootstrap envI18nFails propsReady).2 =
      Except.error "i18nextLocize exception" :=
  (C7_errors_propagate envI18nFails propsReady "i18nextLocize exception" (by rfl)).1 rfl

/-! Claim C6. -/

/-- C6 counterexample: on a non-browser invocation the component still emits
console.info output, so console diagnostics are not suppressed outside the
browser; only the console.debug props dump is. -/
theorem C6_counterexample :
    envServer.isBrowser = false ∧
    Event.consoleInfo
        "MultiversalAppBootstrap - App is not ready yet, waiting for isReadyToRender"
      ∈ (MultiversalAppBootstrap envServer propsNotReady).1 := by
  refine ⟨rfl, ?_⟩
  rw [run_not_ready envServer propsNotReady (by rfl)]
  simp

/-- C6 (amended): every invocation emits exactly one breadcrumb; the
console.debug dump of the props is emitted exactly when running in a browser;
the console.info readiness diagnostics are emitted in browser and non-browser
contexts alike: whatever the browser flag, the ready message is emitted
whenever the gate passes and the not-ready message whenever it fails. -/
theorem C6_breadcrumb_and_console {ε : Type} (env : Env ε) (props : Obj) :
    (MultiversalAppBootstrap env props).1.countP Event.isBreadcrumbEv = 1 ∧
    (env.isBrowser = false →
      (MultiversalAppBootstrap env props).1.countP Event.isConsoleDebugEv = 0) ∧
    (env.isBrowser = true →
      Event.consoleDebug "MultiversalAppBootstrap.props" props
        ∈ (MultiversalAppBootstrap env props).1) ∧
    (readyGate (pagePropsOf props) = true →
      Event.consoleInfo "MultiversalAppBootstrap - App is ready, rendering..."
        ∈ (MultiversalAppBootstrap env props).1) ∧
    (readyGate (pagePropsOf props) = false →
      Event.consoleInfo
          "MultiversalAppBootstrap - App is not ready yet, waiting for isReadyToRender"
        ∈ (MultiversalAppBootstrap env props).1) := by
  cases hg : readyGate (pagePropsOf props) with
  | false =>
    rw [run_not_ready env props hg]
    cases hb : env.isBrowser <;>
      simp [hg, hb, Event.isBreadcrumbEv, Event.isConsoleDebugEv, List.countP_cons,
        List.countP_nil]
  | true =>
    cases hb : env.isBrowser with
    | false =>
      rcases hi : env.i18nextLocize (getField (pagePropsOf props) "lang")
          (getField (pagePropsOf props) "defaultLocales") with e1 | iv
      · simp [MultiversalAppBootstrap, hg, hb, hi, Event.isBreadcrumbEv,
          Event.isConsoleDebugEv, List.countP_cons, List.countP_nil]
      · rcases ht : env.initCustomerTheme (getField (pagePropsOf props) "customer")
            with e2 | tv <;>
          simp [MultiversalAppBootstrap, hg, hb, hi, ht, Event.isBreadcrumbEv,
            Event.isConsoleDebugEv, List.countP_cons, List.countP_nil]
    | true =>
      rcases hi : env.i18nextLocize (getField (pagePropsOf props) "lang")
          (getField (pagePropsOf props) "defaultLocales") with e1 | iv
      · simp [MultiversalAppBootstrap, hg, hb, hi, Event.isBreadcrumbEv,
          Event.isConsoleDebugEv, List.countP_cons, List.countP_nil]
      · rcases ht : env.initCustomerTheme (getField (pagePropsOf props) "customer")
            with e2 | tv
        · simp [MultiversalAppBootstrap, hg, hb, hi, ht, Event.isBreadcrumbEv,
            Event.isConsoleDebugEv, List.countP_cons, List.countP_nil]
        · rcases hif : env.isRunningInIframe with e3 | bv
          · simp [MultiversalAppBootstrap, hg, hb, hi, ht, hif, Event.isBreadcrumbEv,
              Event.isConsoleDebugEv, List.countP_cons, List.countP_nil]
          · rcases href : env.getIframeReferrer with e4 | sv
            · simp [MultiversalAppBootstrap, hg, hb, hi, ht, hif, href,
                Event.isBreadcrumbEv, Event.isConsoleDebugEv, List.countP_cons,
                List.countP_nil]
            · rcases hcm : env.newUniversalCookiesManager with e5 | cv
              · simp [MultiversalAppBootstrap, hg, hb, hi, ht, hif, href, hcm,
                  Event.isBreadcrumbEv, Event.isConsoleDebugEv, List.countP_cons,
                  List.countP_nil]
              · rcases hud : env.getUserData cv with e6 | uv <;>
                  simp [MultiversalAppBootstrap, hg, hb, hi, ht, hif, href, hcm, hud,
                    Event.isBreadcrumbEv, Event.isConsoleDebugEv, List.countP_cons,
                    List.countP_nil]

/-- C6 witness: the amended claim applied at a concrete non-browser input,
including the console.info emission outside the browser. -/
theorem C6_breadcrumb_and_console_witness :
    (MultiversalAppBootstrap envServer propsNotReady).1.countP Event.isBreadcrumbEv = 1 ∧
    (MultiversalAppBootstrap envServer propsNotReady).1.countP Event.isConsoleDebugEv = 0 ∧
    Event.consoleInfo
        "MultiversalAppBootstrap - App is not ready yet, waiting for isReadyToRender"
      ∈ (MultiversalAppBootstrap envServer propsNotReady).1 :=
  ⟨(C6_breadcrumb_and_console envServer propsNotReady).1,
   (C6_breadcrumb_and_console envServer propsNotReady).2.1 rfl,
   (C6_breadcrumb_and_console envServer propsNotReady).2.2.2.2 rfl⟩

/-! Claim C8. -/

/-- C8: when the readiness gate fails, no collaborator is called at all: the
trace contains no collaborator-call event and the render result is null. -/
theorem C8_no_collaborator_calls_when_not_ready {ε : Type} (env : Env ε) (props : Obj)
    (h : readyGate (pagePropsOf props) = false) :
    (MultiversalAppBootstrap env props).1.filter Event.isCollabCall = [] ∧
    (MultiversalAppBootstrap env props).2 = Except.ok RenderResult.nullRender := by
  rw [run_not_ready env props h]
  cases env.isBrowser <;> simp [Event.isCollabCall]

/-- C8 witness: concrete not-ready run performing no collaborator calls. -/
theorem C8_no_collaborator_calls_when_not_ready_witness :
    (MultiversalAppBootstrap envServer propsNotReady).1.filter Event.isCollabCall = [] ∧
    (MultiversalAppBootstrap envServer propsNotReady).2 =
      Except.ok RenderResult.nullRender :=
  C8_no_collaborator_calls_when_not_ready envServer propsNotReady (by rfl)

/-! Claim C9. -/

/-- C9: the merged props spread pageProps first, then the named fields
Component, err, i18nextInstance, router, theme, then the passthrough rest
fields last; hence a passthrough field named i18nextInstance or theme
overrides the computed value (and none can be named Component, err or router,
those being removed by the destructuring), while in the browser branch the
freshly computed isInIframe, iframeReferrer, cookiesManager and userSession
are spread after the merged props and override any same-named passthrough
field. -/
theorem C9_spread_order {ε : Type} (env : Env ε) (props : Obj) (i t : Value)
    (hgate : readyGate (pagePropsOf props) = true)
    (hi : env.i18nextLocize (getField (pagePropsOf props) "lang")
      (getField (pagePropsOf props) "defaultLocales") = Except.ok i)
    (ht : env.initCustomerTheme (getField (pagePropsOf props) "customer") = Except.ok t) :
    (env.isBrowser = false →
      (MultiversalAppBootstrap env props).2 = Except.ok (RenderResult.pageBootstrap
        (pagePropsOf props ++
          [("Component", getField props "Component"), ("err", getField props "err"),
           ("i18nextInstance", i), ("router", getField props "router"), ("theme", t)] ++
          restOf props))) ∧
    (∀ (iif : Bool) (iref : String) (cm us : Value), env.isBrowser = true →
      env.isRunningInIframe = Except.ok iif → env.getIframeReferrer = Except.ok iref →
      env.newUniversalCookiesManager = Except.ok cm → env.getUserData cm = Except.ok us →
      (MultiversalAppBootstrap env props).2 = Except.ok (RenderResult.browserPageBootstrap
        ((pagePropsOf props ++
          [("Component", getField props "Component"), ("err", getField props "err"),
           ("i18nextInstance", i), ("router", getField props "router"), ("theme", t)] ++
          restOf props) ++
         [("isInIframe", Value.vBool iif), ("iframeReferrer", Value.vStr iref),
          ("cookiesManager", cm), ("userSession", us)]))) ∧
    (hasKey (restOf props) "Component" = false ∧ hasKey (restOf props) "err" = false ∧
      hasKey (restOf props) "router" = false) ∧
    (∀ d : Obj, delegatedProps (MultiversalAppBootstrap env props) = some d →
      (hasKey (restOf props) "i18nextInstance" = true →
        getField d "i18nextInstance" = getField (restOf props) "i18nextInstance") ∧
      (hasKey (restOf props) "theme" = true →
        getField d "theme" = getField (restOf props) "theme")) ∧
    (∀ (iif : Bool) (iref : String) (cm us : Value), env.isBrowser = true →
      env.isRunningInIframe = Except.ok iif → env.getIframeReferrer = Except.ok iref →
      env.newUniversalCookiesManager = Except.ok cm → env.getUserData cm = Except.ok us →
      ∀ d : Obj, delegatedProps (MultiversalAppBootstrap env props) = some d →
        getField d "isInIframe" = Value.vBool iif ∧
        getField d "iframeReferrer" = Value.vStr iref ∧
        getField d "cookiesManager" = cm ∧ getField d "userSession" = us) := by
  refine ⟨?_, ?_, ?_, ?_, ?_⟩
  · intro hb
    rw [run_universal env props i t hgate hb hi ht]
    rfl
  · intro iif iref cm us hb hif href hcm hud
    rw [run_browser env props i t iif iref cm us hgate hb hi ht hif href hcm hud]
    rfl
  · exact ⟨hasKey_restOf_destructured _ _ (by decide),
      hasKey_restOf_destructured _ _ (by decide),
      hasKey_restOf_destructured _ _ (by decide)⟩
  · intro d hd
    rcases delegated_shape env props i t d hgate hi ht hd with ⟨hb, hde⟩ |
      ⟨hb, iif, iref, cm, us, hif, href, hcm, hud, hde⟩
    · rw [hde]
      exact ⟨fun hki => getField_pbp_rest _ _ _ _ _ _ _ _ hki,
        fun hkt => getField_pbp_rest _ _ _ _ _ _ _ _ hkt⟩
    · rw [hde]
      constructor
      · intro hki
        rw [getField_bpp_other _ _ _ _ _ _ (by decide) (by decide) (by decide) (by decide)]
        exact getField_pbp_rest _ _ _ _ _ _ _ _ hki
      · intro hkt
        rw [getField_bpp_other _ _ _ _ _ _ (by decide) (by decide) (by decide) (by decide)]
        exact getField_pbp_rest _ _ _ _ _ _ _ _ hkt
  · intro iif iref cm us hb hif href hcm hud d hd
    rw [run_browser env props i t iif iref cm us hgate hb hi ht hif href hcm hud] at hd
    simp only [delegatedProps] at hd
    rw [(Option.some.inj hd).symm]
    exact ⟨getField_bpp_isInIframe _ _ _ _ _, getField_bpp_iframeReferrer _ _ _ _ _,
      getField_bpp_cookiesManager _ _ _ _ _, getField_bpp_userSession _ _ _ _ _⟩

/-- C9 witness: on a concrete input with a passthrough theme field, the
passthrough value wins in the merged props, and the universal delegate is the
exact three-part spread. -/
theorem C9_spread_order_witness :
    (MultiversalAppBootstrap envServer propsShadowTheme).2 =
      Except.ok (RenderResult.pageBootstrap
        (pagePropsOf propsShadowTheme ++
          [("Component", getField propsShadowTheme "Component"),
           ("err", getField propsShadowTheme "err"),
           ("i18nextInstance", i18nSample),
           ("router", getField propsShadowTheme "router"), ("theme", themeSample)] ++
          restOf propsShadowTheme)) ∧
    getField (pageBootstrapProps (pagePropsOf propsShadowTheme)
        (getField propsShadowTheme "Component") (getField propsShadowTheme "err")
        i18nSample (getField propsShadowTheme "router") themeSample
        (restOf propsShadowTheme)) "theme"
      = getField (restOf propsShadowTheme) "theme" := by
  have h := C9_spread_order envServer propsShadowTheme i18nSample themeSample
    (by rfl) (by rfl) (by rfl)
  exact ⟨h.1 rfl, (h.2.2.2.1 _ (by rfl)).2 (by rfl)⟩

/-! Claim C10. -/

/-- C10: the component is deterministic: with a fixed environment (browser
flag and collaborator behaviour), two invocations on equal props produce the
same trace and the same render result, hence the same branch selection and
delegated props. -/
theorem C10_deterministic {ε : Type} (env : Env ε) (p q : Obj) (h : p = q) :
    MultiversalAppBootstrap env p = MultiversalAppBootstrap env q ∧
    delegatedProps (MultiversalAppBootstrap env p) =
      delegatedProps (MultiversalAppBootstrap env q) := by
  rw [h]
  exact ⟨rfl, rfl⟩

/-- C10 witness: determinism applied at a concrete input. -/
theorem C10_deterministic_witness :
    MultiversalAppBootstrap envBrowser propsReady =
      MultiversalAppBootstrap envBrowser propsReady :=
  (C10_deterministic envBrowser propsReady propsReady rfl).1

end NextRightNow
